import Mathlib

/-
Verification of the assertroute core (src/assertroute.ts): shallow embedding
of the diagnostic summarizer, the AssertError failure model, the assertion
primitive, the sync/async route wrappers with their overload dispatch, and
the multi-assert boolean validator, together with proofs of the specified
properties.

Modelling conventions:
- JS runtime values are the inductive `JSValue`.  Plain `Error` objects are
  `JSValue.errObj`; the library's own `AssertError` instances are kept in a
  separate structure (the two are distinguished by `instanceof` in the
  source, which the `Thrown` sum mirrors exactly).
- A thrown JS value is `Thrown`: either an `AssertError` or any other value.
- Machinery that can throw is modelled in `Except Thrown`.
- `getCallerName` inspects the runtime stack; it is environment-dependent
  and purely cosmetic, so it is modelled as an explicit `caller :
  Option String` parameter threaded to every operation that constructs an
  `AssertError`; theorems quantify over it.
- The `onError` callback cannot be modelled as an opaque effect, so wrapped
  calls return, next to their value, the list of `AssertError`s the wrapper
  passed to the callback (empty when the callback is absent); `onError :
  Bool` in the options records whether the callback is present.
- Callable arguments to the route entry points carry their semantics as
  Lean functions (`RouteArg*.func`); `JSValue.fn` represents a function
  value only as inert data (for the summarizer), never as something the
  routing model calls.
-/

namespace AssertRoute

/-- A plain JS `Error` object: `name` and `message`.  (Neither property is
enumerable, so `Object.keys` of an error is empty and `JSON.stringify`
serializes it as an empty object.) -/
structure JSErr where
  name : String
  message : String
deriving DecidableEq, Repr

/-- JS runtime values, as far as the claims need them.  `bigint` is included
because `JSON.stringify` throws a `TypeError` on BigInt values, which is the
representable stand-in for the non-serializable inputs (cyclic structures
cannot be expressed in an inductive type). -/
inductive JSValue where
  | undef
  | null
  | bool (b : Bool)
  | num (n : Int)
  | str (s : String)
  | bigint (n : Int)
  | arr (elems : List JSValue)
  | obj (fields : List (String × JSValue))
  | errObj (e : JSErr)
  | fn (name : String)

/-- `typeof` for the modelled value domain. -/
def typeofJS : JSValue → String
  | .undef => "undefined"
  | .null => "object"
  | .bool _ => "boolean"
  | .num _ => "number"
  | .str _ => "string"
  | .bigint _ => "bigint"
  | .arr _ => "object"
  | .obj _ => "object"
  | .errObj _ => "object"
  | .fn _ => "function"

/-- JS truthiness of a value (`Int` has no NaN or -0, so `n ≠ 0` covers the
numeric case). -/
def truthy : JSValue → Bool
  | .undef => false
  | .null => false
  | .bool b => b
  | .num n => n != 0
  | .str s => s != ""
  | .bigint n => n != 0
  | _ => true

mutual

/-- The `String(v)` conversion used by `new Error(String(e))` and by the
summarizer's last branch.  Function source text is environment-dependent and
cosmetic; it is rendered from the stored name. -/
def jsToString : JSValue → String
  | .undef => "undefined"
  | .null => "null"
  | .bool b => if b then "true" else "false"
  | .num n => toString n
  | .str s => s
  | .bigint n => toString n
  | .fn name => "function " ++ name ++ "()"
  | .errObj e => if e.message = "" then e.name else e.name ++ ": " ++ e.message
  | .obj _ => "[object Object]"
  | .arr xs => jsArrToString xs

/-- `Array.prototype.toString`: elements joined by `","`, with `null` and
`undefined` elements rendered as the empty string. -/
def jsArrToString : List JSValue → String
  | [] => ""
  | x :: xs =>
    let s := match x with
      | .undef => ""
      | .null => ""
      | v => jsToString v
    match xs with
    | [] => s
    | _ => s ++ "," ++ jsArrToString xs

end

/-- Lower hex digit for JSON control-character escapes. -/
def hexDigit (n : Nat) : Char :=
  if n < 10 then Char.ofNat (48 + n) else Char.ofNat (87 + n)

/-- Four-digit hex rendering for `\uXXXX` escapes. -/
def hex4 (n : Nat) : String :=
  String.mk [hexDigit (n / 4096 % 16), hexDigit (n / 256 % 16),
             hexDigit (n / 16 % 16), hexDigit (n % 16)]

/-- JSON escaping of a single character, per `JSON.stringify`. -/
def jsonEscapeChar (c : Char) : String :=
  if c = '"' then "\\\""
  else if c = '\\' then "\\\\"
  else if c = '\n' then "\\n"
  else if c = '\r' then "\\r"
  else if c = '\t' then "\\t"
  else if c = '\x08' then "\\b"
  else if c = '\x0c' then "\\f"
  else if c.toNat < 32 then "\\u" ++ hex4 c.toNat
  else String.singleton c

/-- JSON quoting of a string, per `JSON.stringify`. -/
def jsonQuote (s : String) : String :=
  "\"" ++ String.join (s.data.map jsonEscapeChar) ++ "\""

/-- The failure object `AssertError` (class fields `name`/`code` are
constant, see `AssertError.name`/`AssertError.code`).  `info` is the merged
record stored by the constructor; `cause` is the optional original error. -/
structure AssertError where
  message : String
  info : List (String × JSValue)
  cause : Option JSValue

/-- The constant `name` class field of `AssertError`. -/
def AssertError.name (_ : AssertError) : String := "AssertError"

/-- The constant discriminant `code` class field of `AssertError`. -/
def AssertError.code (_ : AssertError) : String := "ASSERT_FAILED"

/-- A thrown JS value: either an `AssertError` (the `instanceof AssertError`
case of the source) or any other runtime value (plain `Error` objects are
`Thrown.plain (.errObj _)`). -/
inductive Thrown where
  | assertErr (ae : AssertError)
  | plain (v : JSValue)

/-- The `TypeError` raised by `JSON.stringify` on a BigInt value. -/
def bigIntTypeError : Thrown :=
  .plain (.errObj ⟨"TypeError", "Do not know how to serialize a BigInt"⟩)

mutual

/-- `JSON.stringify(v)` restricted to the modelled value domain (no `toJSON`
hooks).  Returns `none` for the JS result `undefined` (top-level `undefined`
and function values); throws a `TypeError` on BigInt values. -/
def jsonStringify : JSValue → Except Thrown (Option String)
  | .undef => .ok none
  | .fn _ => .ok none
  | .null => .ok (some "null")
  | .bool b => .ok (some (if b then "true" else "false"))
  | .num n => .ok (some (toString n))
  | .str s => .ok (some (jsonQuote s))
  | .bigint _ => .error bigIntTypeError
  | .errObj _ => .ok (some "\x7b\x7d")
  | .arr xs => do
    let es ← jsonStringifyElems xs
    .ok (some ("[" ++ String.intercalate "," es ++ "]"))
  | .obj kvs => do
    let ms ← jsonStringifyMembers kvs
    .ok (some ("\x7b" ++ String.intercalate "," ms ++ "\x7d"))

/-- Array elements under `JSON.stringify`: `undefined`/function elements
render as `"null"`. -/
def jsonStringifyElems : List JSValue → Except Thrown (List String)
  | [] => .ok []
  | x :: xs => do
    let r ← jsonStringify x
    let rs ← jsonStringifyElems xs
    .ok ((r.getD "null") :: rs)

/-- Object members under `JSON.stringify`: members whose value serializes to
`undefined` are skipped. -/
def jsonStringifyMembers : List (String × JSValue) → Except Thrown (List String)
  | [] => .ok []
  | (k, v) :: kvs => do
    let r ← jsonStringify v
    let rs ← jsonStringifyMembers kvs
    .ok (match r with
      | some s => (jsonQuote k ++ ":" ++ s) :: rs
      | none => rs)

end

/-- `xs.map((x) => JSON.stringify(x))` over a list of values, keeping the
`undefined` results (rendered as the empty string by `Array.prototype.join`). -/
def mapStringify : List JSValue → Except Thrown (List (Option String))
  | [] => .ok []
  | x :: xs => do
    let r ← jsonStringify x
    let rs ← mapStringify xs
    .ok (r :: rs)

/-- The first `n` characters of a string (JS `String.prototype.slice(0, n)`). -/
def takeChars (s : String) (n : Nat) : String :=
  String.mk (s.data.take n)

/-- `summarizeValue` from src/assertroute.ts lines 11-29, translated branch
by branch.  The array branch maps `JSON.stringify` over the first three
elements with no exception handling, exactly as the source does, so the
result is in `Except Thrown`. -/
def summarizeValue (v : JSValue) : Except Thrown String :=
  match v with
  | .null => .ok "null"
  | .arr xs => do
    let rs ← mapStringify (xs.take 3)
    let sample := String.intercalate ", " (rs.map (fun r => r.getD ""))
    .ok ("array(len=" ++ toString xs.length ++ ", sample=[" ++ sample ++
      (if xs.length > 3 then ", …" else "") ++ "])")
  | .obj kvs =>
    let keys := (kvs.map Prod.fst).take 3
    .ok ("object(keys=[" ++ String.intercalate ", " keys ++
      (if keys.length > 3 then ", …" else "") ++ "])")
  | .errObj _ =>
    .ok ("object(keys=[" ++ String.intercalate ", " [] ++
      (if (0 : Nat) > 3 then ", …" else "") ++ "])")
  | .str s =>
    .ok ("string(len=" ++ toString s.length ++ ", sample=\"" ++ takeChars s 12 ++
      (if s.length > 12 then "…" else "") ++ "\")")
  | v => .ok (typeofJS v ++ "(" ++ jsToString v ++ ")")

/-- The caller name as a JS value (`getCallerName` yields a string or
`undefined`). -/
def callerVal : Option String → JSValue
  | some s => .str s
  | none => (.undef)

/-- Property lookup in a record modelled as an association list. -/
def lookupKey (kvs : List (String × JSValue)) (k : String) : Option JSValue :=
  (kvs.find? (fun p => p.fst == k)).map Prod.snd

/-- `{ ...kvs, k: v }`: replace the value of `k` in place when present,
append the key otherwise (JS insertion-order semantics of spread + literal). -/
def setKey (kvs : List (String × JSValue)) (k : String) (v : JSValue) :
    List (String × JSValue) :=
  if kvs.any (fun p => p.fst == k) then
    kvs.map (fun p => if p.fst == k then (p.fst, v) else p)
  else kvs ++ [(k, v)]

/-- `info?.value !== undefined ? info.value : undefined` — the guard on line
37 of the source. -/
def infoValue (info : Option (List (String × JSValue))) : Option JSValue :=
  match info with
  | none => none
  | some kvs =>
    match lookupKey kvs "value" with
    | some .undef => none
    | some v => some v
    | none => none

/-- The `AssertError` constructor (src/assertroute.ts lines 35-46).
`caller` stands for the environment-dependent `getCallerName(3)` result.
The constructor itself can throw: it calls `summarizeValue` on `info.value`
with no exception handling, so the result is in `Except Thrown`. -/
def mkAssertError (caller : Option String) (message : String)
    (info : Option (List (String × JSValue)) := none)
    (cause : Option JSValue := none) : Except Thrown AssertError := do
  let typeSummary : Option String ←
    match infoValue info with
    | some v => Except.map some (summarizeValue v)
    | none => pure none
  let base := if message = "" then (caller.getD "assert") ++ " failed" else message
  let fullMsg := match typeSummary with
    | some ts => base ++ " (got: " ++ ts ++ ")"
    | none => base
  let storedCause := match cause with
    | some c => if truthy c then some c else none
    | none => none
  pure ⟨fullMsg, setKey (info.getD []) "caller" (callerVal caller), storedCause⟩

/-- `assert(condition, message = 'Assertion failed', info?)`: throw an
`AssertError` on a falsy condition; should the constructor itself throw,
that exception propagates instead. -/
def assert (caller : Option String) (condition : JSValue)
    (message : String := "Assertion failed")
    (info : Option (List (String × JSValue)) := none) : Except Thrown Unit :=
  if truthy condition then .ok ()
  else
    match mkAssertError caller message info with
    | .ok ae => .error (.assertErr ae)
    | .error t => .error t

/-- `toAssertError(e)` (src/assertroute.ts lines 51-55): return an
`AssertError` unchanged; otherwise wrap `e` (coerced to an `Error` first
when it is not one) into a new `AssertError` with the wrapping error as both
`info.cause` and `cause`. -/
def toAssertError (caller : Option String) (e : Thrown) :
    Except Thrown AssertError :=
  match e with
  | .assertErr ae => .ok ae
  | .plain v =>
    let err : JSErr := match v with
      | .errObj je => je
      | _ => ⟨"Error", jsToString v⟩
    mkAssertError caller err.message (some [("cause", .errObj err)])
      (some (.errObj err))

/-- `AssertRouteOptions`.  `onError : Bool` records whether the callback is
present (its invocations are reported in the wrapper's log); `forceWrap` and
`forceInvoke` are declared in the source but never read. -/
structure AssertRouteOptions where
  onError : Bool := false
  catchNonAssertErrors : Option Bool := none
  forceWrap : Option Bool := none
  forceInvoke : Option Bool := none

/-- The `{ onError, ... } = {}` destructuring: whether a callback is present. -/
def optsOnError (opts : Option AssertRouteOptions) : Bool :=
  (opts.map (fun o => o.onError)).getD false

/-- The `{ catchNonAssertErrors = false } = {}` destructuring. -/
def optsCatch (opts : Option AssertRouteOptions) : Bool :=
  (opts.bind (fun o => o.catchNonAssertErrors)).getD false

/-- `handleError` (src/assertroute.ts lines 61-74).  The returned list is
the sequence of `AssertError`s passed to the `onError` callback. -/
def handleError (caller : Option String) (e : Thrown) (onError : Bool)
    (catchNonAssertErrors : Bool) (fallback : JSValue) :
    Except Thrown (JSValue × List AssertError) :=
  match e with
  | .assertErr ae => .ok (fallback, if onError then [ae] else [])
  | .plain v =>
    if catchNonAssertErrors then
      Except.map (fun ae => (fallback, if onError then [ae] else []))
        (toAssertError caller (.plain v))
    else .error (.plain v)

/-- `wrapSync` (src/assertroute.ts lines 84-92): run `fn`, pass a normal
result through, route exceptions to `handleError`. -/
def wrapSync {A : Type} (caller : Option String) (fallback : JSValue)
    (fn : A → Except Thrown JSValue) (opts : Option AssertRouteOptions := none) :
    A → Except Thrown (JSValue × List AssertError) :=
  fun a =>
    match fn a with
    | .ok v => .ok (v, [])
    | .error e => handleError caller e (optsOnError opts) (optsCatch opts) fallback

/-- What invoking an async-wrapped operation can do from the wrapper's view:
throw synchronously before any suspension, or produce a promise that later
resolves or rejects. -/
inductive AsyncFnResult where
  | syncThrow (e : Thrown)
  | promise (r : Except Thrown JSValue)

/-- A pending result handle: the settled outcome of a promise. -/
structure JSPromise (α : Type) where
  result : Except Thrown α

/-- `wrapAsync` (src/assertroute.ts lines 94-102): the `try`/`catch` around
`await fn(...args)` treats a synchronous throw and a rejection identically,
and the wrapper always returns a promise. -/
def wrapAsync {A : Type} (caller : Option String) (fallback : JSValue)
    (fn : A → AsyncFnResult) (opts : Option AssertRouteOptions := none) :
    A → JSPromise (JSValue × List AssertError) :=
  fun a =>
    let r := match fn a with
      | .syncThrow e => Except.error e
      | .promise r => r
    ⟨match r with
     | .ok v => .ok (v, [])
     | .error e => handleError caller e (optsOnError opts) (optsCatch opts) fallback⟩

/-- A variadic JS function as the routing layer sees it: list of argument
values in, value out (possibly throwing). -/
abbrev FnModel := List JSValue → Except Thrown JSValue

/-- A variadic async JS function as the routing layer sees it. -/
abbrev AsyncFnModel := List JSValue → AsyncFnResult

/-- What can be passed in the first parameter position of `assertRoute`:
a callable (`typeof === 'function'`), carried with its semantics, or any
other value. -/
inductive RouteArg1 (F : Type) where
  | func (f : F)
  | val (v : JSValue)

/-- What can be passed in the second parameter position (`fnOrOpts`). -/
inductive RouteArg2 (F : Type) where
  | func (f : F)
  | opts (o : AssertRouteOptions)
  | val (v : JSValue)

/-- What can be passed in the third parameter position (`options`). -/
inductive RouteArg3 where
  | opts (o : AssertRouteOptions)
  | val (v : JSValue)

/-- Reading an `AssertRouteOptions` out of the second parameter position, as
the destructuring in `wrapSync`/`wrapAsync` would: a function or plain value
there has no `onError`/`catchNonAssertErrors` properties, so it behaves as
the empty options object. -/
def arg2AsOpts {F : Type} : Option (RouteArg2 F) → Option AssertRouteOptions
  | some (.opts o) => some o
  | _ => none

/-- Reading an `AssertRouteOptions` out of the third parameter position;
a non-options value there likewise destructures to the defaults. -/
def arg3AsOpts : Option RouteArg3 → Option AssertRouteOptions
  | some (.opts o) => some o
  | _ => none

/-- Reading a callable out of the second parameter position.  When the value
branch of the dispatch casts a non-function to `fn`, invoking the wrapped
function raises a `TypeError` inside `wrapSync`'s `try` block. -/
def arg2AsFn {F : Type} (notFn : F) : Option (RouteArg2 F) → F
  | some (.func f) => f
  | _ => notFn

/-- A `fn` slot holding a non-callable: calling it throws a `TypeError`. -/
def notAFunction : FnModel :=
  fun _ => .error (.plain (.errObj ⟨"TypeError", "fn is not a function"⟩))

/-- The async counterpart of `notAFunction`: the `TypeError` is raised
synchronously, before any suspension. -/
def notAFunctionAsync : AsyncFnModel :=
  fun _ => .syncThrow (.plain (.errObj ⟨"TypeError", "fn is not a function"⟩))

/-- The `assertRoute` implementation (src/assertroute.ts lines 123-140),
with its four parameter positions `(fallbackOrFn, fnOrOpts?, options?,
...args)`.  Dispatch is decided solely by `typeof fallbackOrFn ===
'function'` (the `RouteArg1` constructor); with trailing arguments the
wrapped function is invoked immediately, otherwise it is returned. -/
def assertRoute (caller : Option String) (fallbackOrFn : RouteArg1 FnModel)
    (fnOrOpts : Option (RouteArg2 FnModel)) (options : Option RouteArg3)
    (args : List JSValue) :
    (List JSValue → Except Thrown (JSValue × List AssertError)) ⊕
      Except Thrown (JSValue × List AssertError) :=
  let p : JSValue × FnModel × Option AssertRouteOptions :=
    match fallbackOrFn with
    | .func f => (.undef, f, arg2AsOpts fnOrOpts)
    | .val v => (v, arg2AsFn notAFunction fnOrOpts, arg3AsOpts options)
  let wrapped := wrapSync caller p.1 p.2.1 p.2.2
  match args with
  | [] => .inl wrapped
  | _ => .inr (wrapped args)

/-- JS positional binding of the plain-function call shape
`assertRoute(fn, opts, ...trailing)` to the implementation's parameters:
`fn` binds to `fallbackOrFn`, `opts` to `fnOrOpts`, the FIRST trailing
argument (when present) to the declared-but-unused `options` parameter, and
only the remaining trailing arguments to the rest parameter `args`. -/
def assertRoutePlainCall (caller : Option String) (f : FnModel)
    (o : AssertRouteOptions) (trailing : List JSValue) :
    (List JSValue → Except Thrown (JSValue × List AssertError)) ⊕
      Except Thrown (JSValue × List AssertError) :=
  match trailing with
  | [] => assertRoute caller (.func f) (some (.opts o)) none []
  | a :: rest => assertRoute caller (.func f) (some (.opts o)) (some (.val a)) rest

/-- The `assertRouteAsync` implementation (src/assertroute.ts lines
159-181): identical dispatch, but the wrapped operation and the immediate
invocation both yield a pending result. -/
def assertRouteAsync (caller : Option String)
    (fallbackOrFn : RouteArg1 AsyncFnModel)
    (fnOrOpts : Option (RouteArg2 AsyncFnModel)) (options : Option RouteArg3)
    (args : List JSValue) :
    (List JSValue → JSPromise (JSValue × List AssertError)) ⊕
      JSPromise (JSValue × List AssertError) :=
  let p : JSValue × AsyncFnModel × Option AssertRouteOptions :=
    match fallbackOrFn with
    | .func f => (.undef, f, arg2AsOpts fnOrOpts)
    | .val v => (v, arg2AsFn notAFunctionAsync fnOrOpts, arg3AsOpts options)
  let wrapped := wrapAsync caller p.1 p.2.1 p.2.2
  match args with
  | [] => .inl wrapped
  | _ => .inr (wrapped args)

/-- The loop body of `isValid` (src/assertroute.ts lines 1084-1094): run the
assertions in order inside one `try`; the first throw exits the loop, an
`AssertError` becomes `false`, anything else is re-thrown. -/
def isValidGo {A : Type} : List (A → Except Thrown Unit) → A → Except Thrown Bool
  | [], _ => .ok true
  | f :: rest, a =>
    match f a with
    | .ok () => isValidGo rest a
    | .error (.assertErr _) => .ok false
    | .error e => .error e

/-- `isValid(...assertions)`: a function running the assertions against its
argument tuple and reducing to a boolean. -/
def isValid {A : Type} (assertions : List (A → Except Thrown Unit)) :
    A → Except Thrown Bool :=
  fun a => isValidGo assertions a

/-- Substring test on character lists. -/
def charsHasSub : List Char → List Char → Bool
  | l, p =>
    if p.isPrefixOf l then true
    else match l with
      | [] => false
      | _ :: t => charsHasSub t p

/-- Whether `pat` occurs as a contiguous substring of `s`. -/
def strContains (s pat : String) : Bool :=
  charsHasSub s.data pat.data

/- ---------------- theorems ---------------- -/

/-- C1: for every function, fallback and argument tuple, the sync wrapper
passes a normal return through unchanged with no `onError` invocation; when
the function throws an `AssertError`, the `onError` callback (when present)
is invoked exactly once with that failure and the wrapper returns the
fallback.  The final conjunct ties `assertRoute(fallback, fn, options)` to
that wrapper. -/
theorem C1_wrapSync_contract {A : Type} (caller : Option String) (fb : JSValue)
    (fn : A → Except Thrown JSValue) (opts : Option AssertRouteOptions)
    (a : A) (v : JSValue) (ae : AssertError) :
    (fn a = .ok v → wrapSync caller fb fn opts a = .ok (v, [])) ∧
    (fn a = .error (.assertErr ae) →
      wrapSync caller fb fn opts a =
        .ok (fb, if optsOnError opts then [ae] else [])) ∧
    (∀ (g : FnModel) (o : AssertRouteOptions),
      assertRoute caller (.val fb) (some (.func g)) (some (.opts o)) [] =
        .inl (wrapSync caller fb g (some o))) := by
  refine ⟨fun h => ?_, fun h => ?_, fun g o => rfl⟩
  · simp [wrapSync, h]
  · simp [wrapSync, h, handleError]

/-- Closed instance of C1: a normal return of 42 passes through, and an
`AssertError` with an `onError` callback present yields the fallback with
one callback invocation. -/
theorem C1_wrapSync_contract_witness :
    wrapSync (A := Unit) none (.num 0) (fun _ => .ok (.num 42)) none () =
      .ok (.num 42, []) ∧
    wrapSync (A := Unit) none (.num 0)
      (fun _ => .error (.assertErr ⟨"m", [], none⟩)) (some ⟨true, none, none, none⟩) () =
      .ok (.num 0, [⟨"m", [], none⟩]) := by
  refine ⟨(C1_wrapSync_contract none (.num 0) _ none () (.num 42) ⟨"m", [], none⟩).1 rfl, ?_⟩
  have h := (C1_wrapSync_contract (A := Unit) none (.num 0)
    (fun _ => .error (.assertErr ⟨"m", [], none⟩)) (some ⟨true, none, none, none⟩) ()
    (.num 42) ⟨"m", [], none⟩).2.1 rfl
  simpa [optsOnError] using h

/-- C2: a non-`AssertError` exception is re-thrown with identity unchanged
when `catchNonAssertErrors` is false or absent; when it is true, the
exception is normalized through `toAssertError` and handled exactly like a
failure (callback invoked with the normalized error, fallback returned). -/
theorem C2_nonassert_exception_contract {A : Type} (caller : Option String)
    (fb : JSValue) (fn : A → Except Thrown JSValue)
    (opts : Option AssertRouteOptions) (a : A) (v : JSValue) :
    fn a = .error (.plain v) →
    (optsCatch opts = false → wrapSync caller fb fn opts a = .error (.plain v)) ∧
    (optsCatch opts = true →
      ∃ ae, toAssertError caller (.plain v) = .ok ae ∧
        wrapSync caller fb fn opts a =
          .ok (fb, if optsOnError opts then [ae] else [])) := by
  intro h
  constructor
  · intro hc; simp [wrapSync, h, handleError, hc]
  · intro hc
    refine ⟨_, rfl, ?_⟩
    simp [wrapSync, h, handleError, hc]
    rfl

/-- Closed instance of C2: `route(0, () => { throw new Error('boom'); })()`
re-throws `Error('boom')` with recovery unset, and returns `0` with recovery
enabled. -/
theorem C2_nonassert_exception_witness :
    wrapSync (A := Unit) none (.num 0)
      (fun _ => .error (.plain (.errObj ⟨"Error", "boom"⟩))) none () =
      .error (.plain (.errObj ⟨"Error", "boom"⟩)) ∧
    wrapSync (A := Unit) none (.num 0)
      (fun _ => .error (.plain (.errObj ⟨"Error", "boom"⟩)))
      (some ⟨false, some true, none, none⟩) () = .ok (.num 0, []) := by
  constructor
  · exact (C2_nonassert_exception_contract none (.num 0)
      (fun _ => .error (.plain (.errObj ⟨"Error", "boom"⟩))) none ()
      (.errObj ⟨"Error", "boom"⟩) rfl).1 rfl
  · obtain ⟨ae, -, h⟩ := (C2_nonassert_exception_contract none (.num 0)
      (fun _ => .error (.plain (.errObj ⟨"Error", "boom"⟩)))
      (some ⟨false, some true, none, none⟩) () (.errObj ⟨"Error", "boom"⟩) rfl).2 rfl
    simpa [optsOnError] using h

/-- C3 evaluation: a truthy condition returns with no effect; a plain falsy
condition throws an `AssertError` carrying the `ASSERT_FAILED` discriminant
and the default message; but with `info.value` containing a BigInt inside an
array, the `AssertError` constructor itself throws a `TypeError` from
`JSON.stringify`, so `assert` does NOT raise an `AssertError` even though
the condition is falsy — the code slip behind the summarizer claim. -/
theorem C3_assert_eval :
    assert none (.num 1) = .ok () ∧
    assert none (.bool false) =
      .error (.assertErr ⟨"Assertion failed", [("caller", .undef)], none⟩) ∧
    (∀ ae : AssertError, ae.code = "ASSERT_FAILED") ∧
    assert none (.bool false) "m" (some [("value", .arr [.bigint 1])]) =
      .error bigIntTypeError :=
  ⟨rfl, rfl, fun _ => rfl, rfl⟩

/-- C7 evaluation: the summarizer is not exception-safe — an array whose
sampled elements contain a BigInt makes `JSON.stringify` throw a `TypeError`
that `summarizeValue` propagates instead of degrading to a placeholder;
ordinary inputs do summarize to strings. -/
theorem C7_summarizer_throws :
    summarizeValue (.arr [.bigint 10]) = .error bigIntTypeError ∧
    summarizeValue (.num 3) = .ok "number(3)" ∧
    summarizeValue .null = .ok "null" ∧
    summarizeValue (.str "hi") = .ok "string(len=2, sample=\"hi\")" ∧
    summarizeValue (.obj [("a", .num 1)]) = .ok "object(keys=[a])" :=
  ⟨rfl, rfl, rfl, rfl, rfl⟩

/-- C4 evaluation: in the general form `assertRoute(fallback, fn, opts, 7)`
the trailing argument does invoke the wrapped function immediately; but in
the plain-function form `assertRoute(fn, opts, ...)` the first trailing
argument binds to the unused third parameter `options`, so with one trailing
argument the call returns the wrapped function instead of invoking it, and
with two it invokes the function with only the second one. -/
theorem C4_plain_form_drops_argument :
    assertRoute none (.val (.num 0))
      (some (.func (fun args => .ok (args.headD .undef))))
      (some (.opts ⟨false, none, none, none⟩)) [.num 7] = .inr (.ok (.num 7, [])) ∧
    (assertRoutePlainCall none (fun args => .ok (args.headD .undef))
      ⟨false, none, none, none⟩ [.num 7]).isLeft = true ∧
    assertRoutePlainCall none (fun args => .ok (args.headD .undef))
      ⟨false, none, none, none⟩ [.num 7, .num 8] = .inr (.ok (.num 8, [])) :=
  ⟨rfl, rfl, rfl⟩

/-- C5: the async wrapper mirrors the sync contract — a resolving operation
yields its value; a throw before any suspension and a rejection with the
same exception are handled identically; a rejection with a Failure invokes
the callback and resolves to the fallback; a non-Failure rejection
propagates when recovery is not opted in; and immediate invocation through
`assertRouteAsync` always yields a pending `JSPromise`, never a plain
value. -/
theorem C5_async_contract {A : Type} (caller : Option String) (fb : JSValue)
    (fn fn2 : A → AsyncFnResult) (opts : Option AssertRouteOptions) (a : A)
    (v : JSValue) (e : Thrown) (ae : AssertError) :
    (fn a = .promise (.ok v) → wrapAsync caller fb fn opts a = ⟨.ok (v, [])⟩) ∧
    (fn a = .syncThrow e → fn2 a = .promise (.error e) →
      wrapAsync caller fb fn opts a = wrapAsync caller fb fn2 opts a) ∧
    (fn a = .promise (.error (.assertErr ae)) →
      wrapAsync caller fb fn opts a =
        ⟨.ok (fb, if optsOnError opts then [ae] else [])⟩) ∧
    (fn a = .promise (.error (.plain v)) → optsCatch opts = false →
      wrapAsync caller fb fn opts a = ⟨.error (.plain v)⟩) ∧
    (∀ (g : AsyncFnModel) (o : Option RouteArg3) (x : JSValue)
      (rest : List JSValue),
      ∃ p : JSPromise (JSValue × List AssertError),
        assertRouteAsync caller (.val fb) (some (.func g)) o (x :: rest) =
          .inr p ∧ p = wrapAsync caller fb g (arg3AsOpts o) (x :: rest)) := by
  refine ⟨fun h => ?_, fun h h2 => ?_, fun h => ?_, fun h hc => ?_,
    fun g o x rest => ⟨_, rfl, rfl⟩⟩
  · simp [wrapAsync, h]
  · simp [wrapAsync, h, h2]
  · simp [wrapAsync, h, handleError]
  · simp [wrapAsync, h, handleError, hc]

/-- Closed instance of C5: a resolving operation yields 42; a pre-suspension
throw and a rejection with the same failure give the same settled promise,
which resolves to the fallback with one callback invocation; a non-Failure
rejection rejects the promise; an immediate async invocation is a pending
result. -/
theorem C5_async_contract_witness :
    wrapAsync (A := Unit) none (.num 0) (fun _ => .promise (.ok (.num 42))) none () =
      ⟨.ok (.num 42, [])⟩ ∧
    wrapAsync (A := Unit) none (.num 0)
      (fun _ => .syncThrow (.assertErr ⟨"m", [], none⟩))
      (some ⟨true, none, none, none⟩) () =
      wrapAsync (A := Unit) none (.num 0)
        (fun _ => .promise (.error (.assertErr ⟨"m", [], none⟩)))
        (some ⟨true, none, none, none⟩) () ∧
    wrapAsync (A := Unit) none (.num 0)
      (fun _ => .promise (.error (.assertErr ⟨"m", [], none⟩)))
      (some ⟨true, none, none, none⟩) () = ⟨.ok (.num 0, [⟨"m", [], none⟩])⟩ ∧
    wrapAsync (A := Unit) none (.num 0)
      (fun _ => .promise (.error (.plain (.errObj ⟨"Error", "boom"⟩)))) none () =
      ⟨.error (.plain (.errObj ⟨"Error", "boom"⟩))⟩ ∧
    assertRouteAsync none (.val (.num 0))
      (some (.func (fun _ => .promise (.ok (.num 42))))) none [.num 7] =
      .inr ⟨.ok (.num 42, [])⟩ := by
  refine ⟨(C5_async_contract (A := Unit) none (.num 0)
      (fun _ => .promise (.ok (.num 42))) (fun _ => .promise (.ok (.num 42)))
      none () (.num 42) (.assertErr ⟨"m", [], none⟩) ⟨"m", [], none⟩).1 rfl,
    (C5_async_contract (A := Unit) none (.num 0)
      (fun _ => .syncThrow (.assertErr ⟨"m", [], none⟩))
      (fun _ => .promise (.error (.assertErr ⟨"m", [], none⟩)))
      (some ⟨true, none, none, none⟩) () (.num 42)
      (.assertErr ⟨"m", [], none⟩) ⟨"m", [], none⟩).2.1 rfl rfl, ?_, ?_, ?_⟩
  · have h := (C5_async_contract (A := Unit) none (.num 0)
      (fun _ => .promise (.error (.assertErr ⟨"m", [], none⟩)))
      (fun _ => .promise (.error (.assertErr ⟨"m", [], none⟩)))
      (some ⟨true, none, none, none⟩) () (.num 42)
      (.assertErr ⟨"m", [], none⟩) ⟨"m", [], none⟩).2.2.1 rfl
    simpa [optsOnError] using h
  · exact (C5_async_contract (A := Unit) none (.num 0)
      (fun _ => .promise (.error (.plain (.errObj ⟨"Error", "boom"⟩))))
      (fun _ => .promise (.error (.plain (.errObj ⟨"Error", "boom"⟩))))
      none () (.errObj ⟨"Error", "boom"⟩)
      (.assertErr ⟨"m", [], none⟩) ⟨"m", [], none⟩).2.2.2.1 rfl rfl
  · obtain ⟨p, hp, hp2⟩ := (C5_async_contract (A := Unit) none (.num 0)
      (fun _ => .promise (.ok (.num 42))) (fun _ => .promise (.ok (.num 42)))
      none () (.num 42) (.assertErr ⟨"m", [], none⟩) ⟨"m", [], none⟩).2.2.2.2
      (fun _ => .promise (.ok (.num 42))) none (.num 7) []
    rw [hp, hp2]; rfl

/-- All assertions before a given position succeeding, the `isValid` loop
skips over them. -/
theorem isValidGo_append {A : Type} (s1 l2 : List (A → Except Thrown Unit))
    (a : A) (h : ∀ g ∈ s1, g a = .ok ()) :
    isValidGo (s1 ++ l2) a = isValidGo l2 a := by
  induction s1 with
  | nil => rfl
  | cons g gs ih =>
    have hg : g a = .ok () := h g (List.mem_cons_self g gs)
    rw [List.cons_append]
    show isValidGo (g :: (gs ++ l2)) a = _
    rw [isValidGo, hg]
    exact ih (fun g' hg' => h g' (List.mem_cons_of_mem g hg'))

/-- C6: `isValid` runs the assertions in order; it returns `true` when all
complete, returns `false` at the first assertion throwing an `AssertError`
without the result depending on the assertions after it, and re-throws a
non-`AssertError` exception unmodified. -/
theorem C6_isValid_contract {A : Type}
    (asserts s1 s2 : List (A → Except Thrown Unit))
    (f : A → Except Thrown Unit) (a : A) (ae : AssertError) (v : JSValue) :
    ((∀ g ∈ asserts, g a = .ok ()) → isValid asserts a = .ok true) ∧
    ((∀ g ∈ s1, g a = .ok ()) → f a = .error (.assertErr ae) →
      isValid (s1 ++ f :: s2) a = .ok false) ∧
    ((∀ g ∈ s1, g a = .ok ()) → f a = .error (.plain v) →
      isValid (s1 ++ f :: s2) a = .error (.plain v)) := by
  refine ⟨fun h => ?_, fun h hf => ?_, fun h hf => ?_⟩
  · have := isValidGo_append asserts [] a h
    simpa [isValid] using this
  · have := isValidGo_append s1 (f :: s2) a h
    rw [isValid, this, isValidGo, hf]
  · have := isValidGo_append s1 (f :: s2) a h
    rw [isValid, this, isValidGo, hf]

/-- Closed instance of C6: both assertions passing gives `true`; a failing
`AssertError` in the middle gives `false` regardless of a later non-Failure
assertion; a leading non-`AssertError` exception is re-thrown unchanged. -/
theorem C6_isValid_witness :
    isValid (A := Unit) [fun _ => .ok (), fun _ => .ok ()] () = .ok true ∧
    isValid (A := Unit) [fun _ => .ok (),
      fun _ => .error (.assertErr ⟨"m", [], none⟩),
      fun _ => .error (.plain (.str "later"))] () = .ok false ∧
    isValid (A := Unit) [fun _ => .error (.plain (.errObj ⟨"Error", "boom"⟩))] () =
      .error (.plain (.errObj ⟨"Error", "boom"⟩)) := by
  refine ⟨?_, ?_, ?_⟩
  · exact (C6_isValid_contract (A := Unit) [fun _ => .ok (), fun _ => .ok ()]
      [] [] (fun _ => .ok ()) () ⟨"m", [], none⟩ (.str "x")).1
      (by intro g hg; simp at hg; subst hg; rfl)
  · have h := (C6_isValid_contract (A := Unit) [] [fun _ => .ok ()]
      [fun _ => .error (.plain (.str "later"))]
      (fun _ => .error (.assertErr ⟨"m", [], none⟩)) ()
      ⟨"m", [], none⟩ (.str "x")).2.1
      (by intro g hg; simp at hg; subst hg; rfl) rfl
    simpa using h
  · have h := (C6_isValid_contract (A := Unit) [] []
      [] (fun _ => .error (.plain (.errObj ⟨"Error", "boom"⟩))) ()
      ⟨"m", [], none⟩ (.errObj ⟨"Error", "boom"⟩)).2.2 (fun g hg => absurd hg (by simp)) rfl
    simpa using h

/-- C8 counterexample: `assert(false, "custom", {value: [1,2,3,4]})` throws
with message `custom (got: array(len=4, sample=[1, 2, 3, …]))` — the
ellipsis marker sits INSIDE the brackets, preceded by a comma, so the
spec's literal substring `custom (got: array(len=4, sample=[1, 2, 3]…` does
not occur in the message. -/
theorem C8_claimed_substring_absent :
    assert none (.bool false) "custom"
      (some [("value", .arr [.num 1, .num 2, .num 3, .num 4])]) =
      .error (.assertErr ⟨"custom (got: array(len=4, sample=[1, 2, 3, …]))",
        [("value", .arr [.num 1, .num 2, .num 3, .num 4]), ("caller", .undef)],
        none⟩) ∧
    strContains "custom (got: array(len=4, sample=[1, 2, 3, …]))"
      "custom (got: array(len=4, sample=[1, 2, 3]…" = false :=
  ⟨rfl, rfl⟩

/-- C8 amended: the thrown failure's message is the custom message with a
`" (got: "` clause containing the array summary, which renders the first 3
elements and the ellipsis marker `, …` inside the sample brackets; in
particular the message contains
`custom (got: array(len=4, sample=[1, 2, 3, …]`. -/
theorem C8_amended_got_clause :
    ∃ ae, assert none (.bool false) "custom"
        (some [("value", .arr [.num 1, .num 2, .num 3, .num 4])]) =
        .error (.assertErr ae) ∧
      ae.message = "custom (got: array(len=4, sample=[1, 2, 3, …]))" ∧
      strContains ae.message
        "custom (got: array(len=4, sample=[1, 2, 3, …]" = true :=
  ⟨⟨"custom (got: array(len=4, sample=[1, 2, 3, …]))",
    [("value", .arr [.num 1, .num 2, .num 3, .num 4]), ("caller", .undef)],
    none⟩, rfl, rfl, rfl⟩

/-- C9 counterexample: normalizing the thrown string `"boom"` produces a
failure whose `cause` is a fresh `Error` object wrapping `"boom"`, not the
original caught string itself, contradicting "cause is set to the original
caught value". -/
theorem C9_cause_not_original :
    toAssertError none (.plain (.str "boom")) =
      .ok ⟨"boom", [("cause", .errObj ⟨"Error", "boom"⟩), ("caller", .undef)],
        some (.errObj ⟨"Error", "boom"⟩)⟩ ∧
    some (JSValue.errObj ⟨"Error", "boom"⟩) ≠ some (JSValue.str "boom") := by
  refine ⟨rfl, fun h => ?_⟩
  injection h with h2
  exact JSValue.noConfusion h2

/-- C9 amended: a caught value already carrying the discriminant is returned
unchanged; any other caught value `e` yields a new failure built from the
error `err` (which is `e` itself when `e` is an error object, and a fresh
`Error` wrapping `e`'s textual form otherwise) — its message is
`err.message` (falling back to the synthesized caller text when that is
empty), its `cause` is `err`, and `err` is also recorded under
`info.cause`. -/
theorem C9_amended_normalization (caller : Option String) (e : Thrown) :
    toAssertError caller e = .ok (match e with
      | .assertErr ae => ae
      | .plain v =>
        let je : JSErr := match v with
          | .errObj j => j
          | _ => ⟨"Error", jsToString v⟩
        ⟨if je.message = "" then (caller.getD "assert") ++ " failed"
          else je.message,
         [("cause", .errObj je), ("caller", callerVal caller)],
         some (.errObj je)⟩) := by
  cases e with
  | assertErr ae => rfl
  | plain v => cases v <;> rfl

/-- C10: a callable first argument always takes the plain-function branch of
the dispatch: `assertRoute(f, fn)` wraps `f` with fallback `undefined` and
uses `fn` only in the options position (where a function carries none of the
option properties, so it acts as the empty options object); it never wraps
`fn` with fallback `f`. -/
theorem C10_callable_fallback_impossible (caller : Option String)
    (f g : FnModel) (args : List JSValue) :
    assertRoute caller (.func f) (some (.func g)) none args =
      (match args with
       | [] => .inl (wrapSync caller .undef f none)
       | _ => .inr (wrapSync caller .undef f none args)) ∧
    assertRoute caller (.func f) (some (.func g)) none args =
      assertRoute caller (.func f) none none args := by
  cases args with
  | nil => exact ⟨rfl, rfl⟩
  | cons x rest => exact ⟨rfl, rfl⟩

end AssertRoute
